import Mathlib

/-!
Shallow embedding of the runner lifecycle controller (runner_manager.py,
job_poller.py, webhook_server.py, aws_manager.py, main.py) together with
theorems settling the frozen claims about its specification.

External collaborators (the GitHub REST API, the EC2 API, JSON parsing,
clocks and random suffixes) are modelled as explicit parameters: each
embedded routine receives the results those calls would return and the
fresh names the uuid generator would produce, and reports the provider
calls it issues as an explicit effect record.
-/

namespace ActionsSpot

/-! ## String helpers mirroring the Python primitives used by the source -/

/-- Model of the Python substring test: needle occurs in hay. -/
def strContains (hay needle : String) : Bool :=
  (List.range (hay.data.length + 1)).any (fun i => needle.data.isPrefixOf (hay.data.drop i))

/-- Model of str.startswith. -/
def strStarts (s pre : String) : Bool :=
  pre.data.isPrefixOf s.data

/-- Split a character list at every occurrence of the separator. -/
def chSplit (sep : Char) : List Char → List (List Char)
  | [] => [[]]
  | c :: cs =>
    let r := chSplit sep cs
    if c = sep then [] :: r
    else (c :: r.headD []) :: r.tail

/-- Model of str.split(sep): every occurrence splits. -/
def strSplitAll (sep : Char) (s : String) : List String :=
  (chSplit sep s.data).map (fun l => String.mk l)

/-- Join character lists with the separator between them. -/
def chJoin (sep : Char) : List (List Char) → List Char
  | [] => []
  | [l] => l
  | l :: ls => l ++ sep :: chJoin sep ls

/-- Model of str.split(sep, 1): the part before the first separator and the rest. -/
def splitOnce (sep : Char) (s : String) : String × String :=
  let parts := chSplit sep s.data
  (String.mk (parts.headD []), String.mk (chJoin sep (parts.drop 1)))

/-- Model of item.split(sep)[1], total with default for absent index. -/
def splitIdx1 (sep : Char) (s : String) : String :=
  String.mk (((chSplit sep s.data).drop 1).headD [])

/-- Whitespace recognised by str.strip. -/
def isSpaceCh (c : Char) : Bool :=
  c = ' ' ∨ c = '\t' ∨ c = '\n' ∨ c = '\r'

/-- Model of str.strip(). -/
def pyStrip (s : String) : String :=
  String.mk (((s.data.dropWhile isSpaceCh).reverse.dropWhile isSpaceCh).reverse)

/-- Replace non-overlapping occurrences of pat left to right, with fuel for
structural recursion; fuel at least the length of the list is enough since
every step consumes at least one character. A nonempty pattern is assumed,
as everywhere in the source. -/
def chReplace (pat rep : List Char) : Nat → List Char → List Char
  | _, [] => []
  | 0, l => l
  | fuel + 1, c :: cs =>
    if pat.isPrefixOf (c :: cs) ∧ pat ≠ [] then
      rep ++ chReplace pat rep fuel (cs.drop (pat.length - 1))
    else c :: chReplace pat rep fuel cs

/-- Model of str.replace(pat, rep) for nonempty pat. -/
def pyReplace (s pat rep : String) : String :=
  String.mk (chReplace pat.data rep.data s.data.length s.data)

/-- Value of a decimal digit string. -/
def digitsToNat (l : List Char) : Nat :=
  l.foldl (fun acc c => acc * 10 + (c.toNat - 48)) 0

/-- Model of the Python int() constructor on a string: optional surrounding
whitespace, optional sign, then a nonempty run of decimal digits; any other
shape raises ValueError, modelled as none. -/
def pyInt (s : String) : Option Int :=
  let t := (pyStrip s).data
  match t with
  | [] => none
  | c :: rest =>
    if c = '-' then
      if rest ≠ [] ∧ rest.all Char.isDigit then some (-(digitsToNat rest : Int)) else none
    else if c = '+' then
      if rest ≠ [] ∧ rest.all Char.isDigit then some ((digitsToNat rest : Int)) else none
    else
      if (c :: rest).all Char.isDigit then some ((digitsToNat (c :: rest) : Int)) else none

/-! ## CPU capacity table (identical in runner_manager.py and job_poller.py) -/

/-- The cpu_map dictionary, already in the ascending order that
sorted(cpu_map.items()) produces. -/
def cpu_map : List (Int × String) :=
  [(1, "t3.micro"), (2, "t3.medium"), (4, "t3.xlarge"), (8, "t3.2xlarge"),
   (16, "m5.4xlarge"), (32, "m5.8xlarge"), (64, "m5.16xlarge")]

/-- The loop body of _cpu_to_instance_type: first entry whose capacity is at
least the requested count. -/
def findClass (n : Int) : List (Int × String) → Option String
  | [] => none
  | p :: ps => if n ≤ p.1 then some p.2 else findClass n ps

/-- Model of RunnerManager._cpu_to_instance_type and
JobPoller._cpu_to_instance_type. -/
def cpu_to_instance_type (n : Int) : String :=
  (findClass n cpu_map).getD "m5.16xlarge"

/-- Entry of least capacity in a capacity table. -/
def minCapEntry : List (Int × String) → Option (Int × String)
  | [] => none
  | p :: ps =>
    match minCapEntry ps with
    | none => some p
    | some q => some (if p.1 ≤ q.1 then p else q)

/-- Entry of greatest capacity in a capacity table. -/
def maxCapEntry : List (Int × String) → Option (Int × String)
  | [] => none
  | p :: ps =>
    match maxCapEntry ps with
    | none => some p
    | some q => some (if q.1 ≤ p.1 then p else q)

/-- The largest class of the capacity table, in the words of the spec. -/
def largestClass : String :=
  ((maxCapEntry cpu_map).map (fun p => p.2)).getD ""

/-- Modelled from the words of the spec, for refinement comparison: the
smallest class whose capacity is at least n; if n exceeds every tier, the
largest class. -/
def specSmallestClassAtLeast (n : Int) : String :=
  match minCapEntry (cpu_map.filter (fun p => n ≤ p.1)) with
  | some p => p.2
  | none => largestClass

/-! ## Label configuration parsers -/

/-- Process-wide defaults consumed by both parsers (from Config). -/
structure ParserDefaults where
  default_instance_type : String
  default_ami_id : String
  runner_labels : List String
  deriving Repr, DecidableEq

/-- The configuration dictionary built by RunnerManager.parse_runs_on_config. -/
structure RunsOnConfig where
  instance_type : String
  ami_id : String
  labels : List String
  max_price : String
  run_id : Option String := none
  memory : Option String := none
  deriving Repr, DecidableEq

/-- One iteration of the loop in RunnerManager.parse_runs_on_config; an
Except.error models the ValueError escaping from int(value). -/
def parseRunsOnItem (c : RunsOnConfig) (item : String) : Except String RunsOnConfig :=
  if strStarts item "runs-on=" then
    Except.ok { c with run_id := some (splitIdx1 '=' item) }
  else if strStarts item "instanceType=" then
    Except.ok { c with instance_type := splitIdx1 '=' item }
  else if strContains item "=" then
    let kv := splitOnce '=' item
    if kv.1 = "family" then Except.ok { c with instance_type := kv.2 }
    else if kv.1 = "cpu" then
      match pyInt kv.2 with
      | some n => Except.ok { c with instance_type := cpu_to_instance_type n }
      | none => Except.error "ValueError"
    else if kv.1 = "memory" ∨ kv.1 = "ram" then Except.ok { c with memory := some kv.2 }
    else if kv.1 = "image" then Except.ok { c with ami_id := kv.2 }
    else if kv.1 = "maxPrice" then Except.ok { c with max_price := kv.2 }
    else if kv.1 = "labels" then Except.ok { c with labels := strSplitAll ',' kv.2 }
    else Except.ok c
  else Except.ok c

/-- Model of RunnerManager.parse_runs_on_config. -/
def parse_runs_on_config (d : ParserDefaults) (runs_on : List String) :
    Except String RunsOnConfig :=
  runs_on.foldlM parseRunsOnItem
    { instance_type := d.default_instance_type, ami_id := d.default_ami_id,
      labels := d.runner_labels, max_price := "0.10" }

/-- The configuration dictionary built by JobPoller._parse_runner_config. -/
structure JPConfig where
  instance_type : String
  ami_id : String
  labels : List String
  max_price : String
  work_folder : String
  memory : Option String := none
  deriving Repr, DecidableEq

/-- One iteration of the loop in JobPoller._parse_runner_config. -/
def parseRunnerItem (c : JPConfig) (label : String) : Except String JPConfig :=
  if strContains label "=" then
    let kv := splitOnce '=' label
    if kv.1 = "instanceType" then Except.ok { c with instance_type := kv.2 }
    else if kv.1 = "cpu" then
      match pyInt kv.2 with
      | some n => Except.ok { c with instance_type := cpu_to_instance_type n }
      | none => Except.error "ValueError"
    else if kv.1 = "memory" ∨ kv.1 = "ram" then Except.ok { c with memory := some kv.2 }
    else if kv.1 = "image" then Except.ok { c with ami_id := kv.2 }
    else if kv.1 = "maxPrice" then Except.ok { c with max_price := kv.2 }
    else if kv.1 = "workFolder" then Except.ok { c with work_folder := kv.2 }
    else if kv.1 = "labels" then Except.ok { c with labels := strSplitAll ',' kv.2 }
    else Except.ok c
  else Except.ok c

/-- Model of JobPoller._parse_runner_config. -/
def parse_runner_config (d : ParserDefaults) (labels : List String) :
    Except String JPConfig :=
  labels.foldlM parseRunnerItem
    { instance_type := d.default_instance_type, ami_id := d.default_ami_id,
      labels := d.runner_labels, max_price := "0.10",
      work_folder := "/home/runner/_work" }

/-! ## RunnerManager: registry and event handlers (runner_manager.py) -/

/-- A value of the active_runners dictionary in RunnerManager. -/
structure RMRecord where
  instance_id : String
  owner : String
  repo : String
  created_at : Nat
  status : String
  config : RunsOnConfig
  deriving Repr, DecidableEq

/-- The active_runners dictionary: insertion-ordered association list with
unique keys, as a Python dict. -/
abbrev RMRegistry := List (String × RMRecord)

/-- Python dict assignment d[k] = v: overwrite in place when the key exists,
otherwise append at the end. -/
def dictInsert {α : Type} (k : String) (v : α) (d : List (String × α)) :
    List (String × α) :=
  if d.any (fun p => p.1 = k) then
    d.map (fun p => if p.1 = k then (k, v) else p)
  else d ++ [(k, v)]

/-- Python membership and lookup on the dictionary. -/
def dictFind {α : Type} (d : List (String × α)) (k : String) : Option α :=
  (d.find? (fun p => p.1 = k)).map (fun p => p.2)

/-- Results of the external calls made by RunnerManager.create_runner: the
registration token from GitHub and the confirmed instance id from
AWSManager.create_spot_instance (none models failure). -/
structure CreateEnv where
  reg_token : Option String
  instance_id : Option String
  deriving Repr, DecidableEq

/-- Model of RunnerManager.create_runner: obtain a token, create the spot
instance, then record the runner under runners_lock with status starting.
Returns the success flag and the new registry. -/
def create_runner (runner_name owner repo : String) (runner_config : RunsOnConfig)
    (env : CreateEnv) (now : Nat) (reg : RMRegistry) : Bool × RMRegistry :=
  match env.reg_token with
  | none => (false, reg)
  | some _ =>
    match env.instance_id with
    | none => (false, reg)
    | some iid =>
      (true, dictInsert runner_name
        { instance_id := iid, owner := owner, repo := repo,
          created_at := now, status := "starting", config := runner_config } reg)

/-- Model of GitHubClient.parse_repository_from_url. -/
def parse_repository_from_url (url : String) : Option (String × String) :=
  if strStarts url "https://github.com/" then
    let parts := strSplitAll '/' (pyReplace url "https://github.com/" "")
    if 2 ≤ parts.length then some (parts.headD "", (parts.drop 1).headD "") else none
  else if strContains url "/" then
    let parts := strSplitAll '/' url
    if 2 ≤ parts.length then some (parts.headD "", (parts.drop 1).headD "") else none
  else none

/-- The fields of a workflow_job webhook payload that the handlers read. -/
structure QueuedPayload where
  job_id : Nat
  labels : List String
  repo_url : String
  deriving Repr, DecidableEq

/-- Model of RunnerManager.handle_workflow_job_queued: eligibility test on
the labels, repository parsing, label parsing (a ValueError is caught by the
surrounding handler and turned into a False return), then create_runner
under a freshly generated runner name. -/
def handle_workflow_job_queued (d : ParserDefaults) (env : CreateEnv)
    (suffix : String) (now : Nat) (payload : QueuedPayload) (reg : RMRegistry) :
    Bool × RMRegistry :=
  if ¬ payload.labels.any (fun l => strContains l "runs-on=") then (false, reg)
  else
    match parse_repository_from_url payload.repo_url with
    | none => (false, reg)
    | some (owner, repo) =>
      match parse_runs_on_config d payload.labels with
      | Except.error _ => (false, reg)
      | Except.ok cfg =>
        let runner_name := "runner-" ++ toString payload.job_id ++ "-" ++ suffix
        create_runner runner_name owner repo cfg env now reg

/-- Results of the external calls made by RunnerManager.cleanup_runner: the
remove token and the runner list (id, name) reported by the GitHub API. -/
structure CleanupEnv where
  remove_token : Option String
  github_runners : List (Nat × String)
  deriving Repr, DecidableEq

/-- Provider calls issued by a cleanup: GitHub runner removals and EC2
instance terminations, in order. -/
structure CleanupEffects where
  github_removed : List Nat
  terminated : List String
  deriving Repr, DecidableEq

/-- The empty effect record. -/
def noEffects : CleanupEffects := { github_removed := [], terminated := [] }

/-- Model of RunnerManager.cleanup_runner: an untracked name returns False
with no calls issued; a tracked name is deregistered best-effort, its
instance terminated, and the record removed from the registry. -/
def cleanup_runner (runner_name : String) (env : CleanupEnv) (reg : RMRegistry) :
    Bool × RMRegistry × CleanupEffects :=
  match dictFind reg runner_name with
  | none => (false, reg, noEffects)
  | some info =>
    let removed :=
      match env.remove_token with
      | none => []
      | some _ =>
        match env.github_runners.find? (fun r => r.2 = runner_name) with
        | some r => [r.1]
        | none => []
    (true, reg.filter (fun p => ¬ (p.1 = runner_name)),
      { github_removed := removed, terminated := [info.instance_id] })

/-- Model of RunnerManager.handle_workflow_job_completed: scan the registry
in insertion order for the first name containing the substring
runner-(job id) and clean that runner up; report True exactly when such a
name was found. -/
def handle_workflow_job_completed (env : CleanupEnv) (job_id : Nat)
    (reg : RMRegistry) : Bool × RMRegistry × CleanupEffects :=
  match reg.find? (fun p => strContains p.1 ("runner-" ++ toString job_id)) with
  | some p =>
    let r := cleanup_runner p.1 env reg
    (true, r.2.1, r.2.2)
  | none => (false, reg, noEffects)

/-! ## JobPoller: polling-path provisioning and cleanup (job_poller.py) -/

/-- A value of the active_runners dictionary in JobPoller. -/
structure JPRecord where
  job_id : Nat
  instance_id : String
  scale_set_id : String
  scale_set_name : String
  repository : String
  created_at : Nat
  status : String
  config : JPConfig
  deriving Repr, DecidableEq

/-- The mutable state of JobPoller: the runner table and the scale set
cache (name to scale set id). -/
structure JPState where
  active_runners : List (String × JPRecord)
  scale_sets : List (String × String)
  deriving Repr, DecidableEq

/-- Results of the external calls made during JobPoller provisioning:
the scale set listing (ids, already stringified), the result of creating a
scale set, the registration token, and the confirmed instance id. -/
structure JPEnv where
  existing_scale_sets : List String
  create_scale_set_result : Option String
  reg_token : Option String
  instance_id : Option String
  deriving Repr, DecidableEq

/-- Provider calls issued during one provisioning attempt: the id of a
scale set newly created through create_scale_set, and the scale sets
deleted for rollback. -/
structure JPEffects where
  created_scale_set : Option String
  deleted_scale_sets : List String
  deriving Repr, DecidableEq

/-- A queued job as JobPoller reads it from the GitHub API. -/
structure JPJob where
  job_id : Nat
  labels : List String
  repository : String
  deriving Repr, DecidableEq

/-- Model of JobPoller._should_create_runner_for_job: the job must carry a
runs-on= label, and no tracked runner may already hold its job id. -/
def should_create_runner_for_job (job : JPJob) (st : JPState) : Bool :=
  if ¬ job.labels.any (fun l => strContains l "runs-on=") then false
  else if st.active_runners.any (fun p => p.2.job_id = job.job_id) then false
  else true

/-- Model of JobPoller._get_or_create_scale_set: returns the scale set id
(none on failure), the updated cache, and the id of a scale set that this
call newly created, if any. -/
def get_or_create_scale_set (env : JPEnv) (scale_set_name : String)
    (cache : List (String × String)) :
    Option String × List (String × String) × Option String :=
  match dictFind cache scale_set_name with
  | some sid => (some sid, cache, none)
  | none =>
    match env.existing_scale_sets.head? with
    | some sid => (some sid, dictInsert scale_set_name sid cache, none)
    | none =>
      match env.create_scale_set_result with
      | some sid => (some sid, dictInsert scale_set_name sid cache, some sid)
      | none => (none, cache, none)

/-- Model of JobPoller._create_runner_for_job: parse labels (a ValueError is
caught by the surrounding handler, leaving everything untouched), resolve or
create a scale set, obtain a registration token, create the instance, and
record the runner; the scale set is deleted only when instance creation
fails. -/
def create_runner_for_job (d : ParserDefaults) (env : JPEnv)
    (runner_suffix scale_set_suffix : String) (now : Nat) (job : JPJob)
    (st : JPState) : JPState × JPEffects :=
  match parse_runner_config d job.labels with
  | Except.error _ => (st, { created_scale_set := none, deleted_scale_sets := [] })
  | Except.ok cfg =>
    let runner_name := "runner-" ++ toString job.job_id ++ "-" ++ runner_suffix
    let scale_set_name := "scaleset-" ++ toString job.job_id ++ "-" ++ scale_set_suffix
    let g := get_or_create_scale_set env scale_set_name st.scale_sets
    match g.1 with
    | none =>
      ({ st with scale_sets := g.2.1 },
       { created_scale_set := g.2.2, deleted_scale_sets := [] })
    | some sid =>
      match env.reg_token with
      | none =>
        ({ st with scale_sets := g.2.1 },
         { created_scale_set := g.2.2, deleted_scale_sets := [] })
      | some _ =>
        match env.instance_id with
        | none =>
          ({ st with scale_sets := g.2.1 },
           { created_scale_set := g.2.2, deleted_scale_sets := [sid] })
        | some iid =>
          ({ active_runners := dictInsert runner_name
              { job_id := job.job_id, instance_id := iid, scale_set_id := sid,
                scale_set_name := scale_set_name, repository := job.repository,
                created_at := now, status := "starting", config := cfg }
              st.active_runners,
             scale_sets := g.2.1 },
           { created_scale_set := g.2.2, deleted_scale_sets := [] })

/-- Provider calls issued by JobPoller._cleanup_runner. -/
structure JPCleanupEffects where
  terminated : List String
  deleted_scale_sets : List String
  deriving Repr, DecidableEq

/-- Model of JobPoller._cleanup_runner: an untracked name is a silent no-op;
a tracked one has its instance terminated, its scale set deleted when one is
recorded and an organization is configured, the cache entry evicted, and the
record removed. -/
def jp_cleanup_runner (github_org : Option String) (runner_name : String)
    (st : JPState) : JPState × JPCleanupEffects :=
  match dictFind st.active_runners runner_name with
  | none => (st, { terminated := [], deleted_scale_sets := [] })
  | some info =>
    let deleted :=
      if info.scale_set_id ≠ "" ∧ github_org.getD "" ≠ "" then [info.scale_set_id]
      else []
    let cache :=
      if info.scale_set_id ≠ "" then
        st.scale_sets.filter (fun p => ¬ (p.1 = info.scale_set_name))
      else st.scale_sets
    ({ active_runners := st.active_runners.filter (fun p => ¬ (p.1 = runner_name)),
       scale_sets := cache },
     { terminated := [info.instance_id], deleted_scale_sets := deleted })

/-! ## WebhookServer: signature verification and dispatch (webhook_server.py) -/

/-- The github_webhook_secret attribute of the configuration object, as
config.py defines it: the Config model declares no such field and from_env
never sets one, so the attribute lookup in _verify_signature raises
AttributeError; the missing attribute is modelled as none. -/
def configWebhookSecret : Option String := none

/-- Model of WebhookServer._verify_signature. The HMAC-SHA256 hexdigest
computation performed through hashlib is an external primitive, passed in
as the function mac from secret and raw body to hex digest. The secret_attr
argument is the github_webhook_secret attribute of the config object, none
when the attribute does not exist (which is the case for config.py, see
configWebhookSecret). A missing or empty header returns False before the
attribute is read; with a header present the attribute is read outside the
try block, so a missing attribute raises AttributeError, modelled as
Except.error; an existing falsy secret returns False, and otherwise the
header is compared in constant time against sha256= followed by the
digest. -/
def verify_signature (mac : String → String → String)
    (secret_attr : Option String) (payload_body : String)
    (signature_header : Option String) : Except String Bool :=
  if signature_header.getD "" = "" then Except.ok false
  else
    match secret_attr with
    | none => Except.error "AttributeError"
    | some secret =>
      if secret = "" then Except.ok false
      else if ("sha256=" ++ mac secret payload_body) = signature_header.getD "" then
        Except.ok true
      else Except.ok false

/-- The fields of a parsed webhook body that dispatch reads. -/
structure ParsedBody where
  action : Option String
  payload : QueuedPayload
  deriving Repr, DecidableEq

/-- External collaborators of one webhook request: the parser applied to the
raw body (none models unparsable JSON) and the provisioning and cleanup
environments the dispatched handlers would use. -/
structure WebhookEnv where
  parseJson : String → Option ParsedBody
  d : ParserDefaults
  cenv : CreateEnv
  clenv : CleanupEnv
  suffix : String
  now : Nat

/-- Model of WebhookServer._handle_webhook composed with
_handle_workflow_job_event: verify the signature over the raw body before
anything else, then parse, then dispatch on event type and action. An
exception escaping the verifier (the AttributeError of the missing secret
attribute) is caught by the surrounding handler and answered 500 with no
state touched; a False verdict is answered 401. Returns the HTTP status
code and the registry afterwards. -/
def handle_webhook (mac : String → String → String)
    (secret_attr : Option String) (body : String)
    (signature_header : Option String) (event_type : Option String)
    (env : WebhookEnv) (reg : RMRegistry) : Nat × RMRegistry :=
  match verify_signature mac secret_attr body signature_header with
  | Except.error _ => (500, reg)
  | Except.ok false => (401, reg)
  | Except.ok true =>
    match env.parseJson body with
    | none => (400, reg)
    | some pb =>
      if event_type = some "workflow_job" then
        if pb.action = some "queued" then
          let r := handle_workflow_job_queued env.d env.cenv env.suffix env.now
            pb.payload reg
          (200, r.2)
        else if pb.action = some "completed" ∨ pb.action = some "cancelled" then
          let r := handle_workflow_job_completed env.clenv pb.payload.job_id reg
          (200, r.2.1)
        else (200, reg)
      else (200, reg)

/-! ## AWSManager age sweep and the manual cleanup endpoint
(aws_manager.py, webhook_server.py, main.py) -/

/-- One instance as reported by AWSManager.list_runner_instances. -/
structure AwsInstance where
  instance_id : String
  launch_time : Nat
  deriving Repr, DecidableEq

/-- Model of AWSManager.cleanup_old_instances: terminate every listed
instance whose age exceeds max_age_hours and count the successful
terminations. The instance listing and the success of each termination call
are external results, passed in as instances and term_ok. Returns the count
and the ids for which termination was issued. -/
def cleanup_old_instances (now : Nat) (max_age_hours : Nat)
    (term_ok : String → Bool) : List AwsInstance → Nat × List String
  | [] => (0, [])
  | inst :: rest =>
    let r := cleanup_old_instances now max_age_hours term_ok rest
    if max_age_hours * 3600 < now - inst.launch_time then
      ((if term_ok inst.instance_id then 1 else 0) + r.1, inst.instance_id :: r.2)
    else r

/-- Model of the POST /cleanup route in WebhookServer._register_routes and
main.create_api_server: call cleanup_old_instances with max_age_hours zero
and report the count; the registry is not consulted. Returns the reported
count, the registry afterwards, and the terminations issued. -/
def manual_cleanup_route (instances : List AwsInstance) (now : Nat)
    (term_ok : String → Bool) (reg : RMRegistry) :
    Nat × RMRegistry × List String :=
  let r := cleanup_old_instances now 0 term_ok instances
  (r.1, reg, r.2)

/-! ## Concrete fixtures used by the closed theorems -/

/-- Defaults as Config.from_env produces them with an unset environment. -/
def sampleDefaults : ParserDefaults :=
  { default_instance_type := "t3.medium",
    default_ami_id := "ami-0c02fb55956c7d316",
    runner_labels := ["self-hosted", "linux", "x64"] }

/-- A queued workflow_job payload for job 42 carrying the correlation
marker. -/
def qp42 : QueuedPayload :=
  { job_id := 42, labels := ["runs-on=42"], repo_url := "https://github.com/octo/repo" }

/-- First delivery environment: token granted, instance i-111 confirmed. -/
def envA : CreateEnv := { reg_token := some "tok", instance_id := some "i-111" }

/-- Second delivery environment: token granted, instance i-222 confirmed. -/
def envB : CreateEnv := { reg_token := some "tok", instance_id := some "i-222" }

/-- A parsed launch configuration fixture. -/
def cfg0 : RunsOnConfig :=
  { instance_type := "t3.medium", ami_id := "ami-0c02fb55956c7d316",
    labels := ["self-hosted", "linux", "x64"], max_price := "0.10" }

/-- A tracked record for job 421. -/
def rec421 : RMRecord :=
  { instance_id := "i-421", owner := "octo", repo := "repo",
    created_at := 0, status := "starting", config := cfg0 }

/-- A tracked record whose instance is i-1. -/
def rec1 : RMRecord :=
  { instance_id := "i-1", owner := "octo", repo := "repo",
    created_at := 0, status := "starting", config := cfg0 }

/-! ## Theorems for the claims -/

/-- C1: the webhook path has no idempotency check: delivering the same
queued notification for job 42 a second time, after the first delivery
completed successfully, creates a second active record for that job. Both
deliveries report success and the registry then holds two records whose
names embed job 42, contradicting the claim that at most one active record
per jobId survives repeated delivery. -/
theorem c1_second_delivery_duplicates :
    (handle_workflow_job_queued sampleDefaults envA "aaaa" 0 qp42 []).1 = true ∧
    (handle_workflow_job_queued sampleDefaults envB "bbbb" 1 qp42
      (handle_workflow_job_queued sampleDefaults envA "aaaa" 0 qp42 []).2).1 = true ∧
    ((handle_workflow_job_queued sampleDefaults envB "bbbb" 1 qp42
      (handle_workflow_job_queued sampleDefaults envA "aaaa" 0 qp42 []).2).2.filter
        (fun q => strStarts q.1 "runner-42-")).length = 2 := by
  decide

/-- C3: completion matching is a substring test on the runner name, so a
completed notification for job 42 arriving while only job 421 has a runner
removes the record of job 421 and terminates its instance, although no
tracked record belongs to job 42. -/
theorem c3_substring_match_removes_wrong_job :
    strStarts "runner-421-deadbeef" "runner-42-" = false ∧
    handle_workflow_job_completed
      { remove_token := some "rtok", github_runners := [(7, "runner-421-deadbeef")] }
      42 [("runner-421-deadbeef", rec421)] =
      (true, [], { github_removed := [7], terminated := ["i-421"] }) := by
  decide

/-- C4: the label parsers are not total: a cpu label whose value is not a
decimal integer makes int() raise ValueError, which escapes both
parse_runs_on_config and _parse_runner_config instead of yielding a
configuration with defaults. -/
theorem c4_parser_raises_on_malformed_cpu :
    parse_runs_on_config sampleDefaults ["cpu=abc"] = Except.error "ValueError" ∧
    parse_runs_on_config sampleDefaults ["cpu="] = Except.error "ValueError" ∧
    parse_runner_config sampleDefaults ["cpu=abc"] = Except.error "ValueError" :=
  ⟨rfl, rfl, rfl⟩

/-- C7: in both parsers a later label overrides an earlier one of the same
effective field: instanceType=X followed by cpu=4 resolves to the class the
capacity table assigns to 4 cpus, and cpu=4 followed by instanceType=X
resolves to X. -/
theorem c7_later_label_wins (d : ParserDefaults) :
    parse_runs_on_config d ["instanceType=X", "cpu=4"] =
      Except.ok { instance_type := "t3.xlarge", ami_id := d.default_ami_id,
                  labels := d.runner_labels, max_price := "0.10" } ∧
    parse_runs_on_config d ["cpu=4", "instanceType=X"] =
      Except.ok { instance_type := "X", ami_id := d.default_ami_id,
                  labels := d.runner_labels, max_price := "0.10" } ∧
    parse_runner_config d ["instanceType=X", "cpu=4"] =
      Except.ok { instance_type := "t3.xlarge", ami_id := d.default_ami_id,
                  labels := d.runner_labels, max_price := "0.10",
                  work_folder := "/home/runner/_work" } ∧
    parse_runner_config d ["cpu=4", "instanceType=X"] =
      Except.ok { instance_type := "X", ami_id := d.default_ami_id,
                  labels := d.runner_labels, max_price := "0.10",
                  work_folder := "/home/runner/_work" } :=
  ⟨rfl, rfl, rfl, rfl⟩

/-- C2 counterexample: provisioning for job 7 creates a new scale set ss-1,
then fails to obtain the registration token; the routine returns with the
registry untouched but the newly created scale set is not deleted,
contradicting the claim that any later failure rolls the group back. -/
theorem c2_counterexample :
    create_runner_for_job sampleDefaults
      { existing_scale_sets := [], create_scale_set_result := some "ss-1",
        reg_token := none, instance_id := none }
      "aaaa" "bbbb" 0 { job_id := 7, labels := ["runs-on=7"], repository := "octo/repo" }
      { active_runners := [], scale_sets := [] } =
      ({ active_runners := [], scale_sets := [("scaleset-7-bbbb", "ss-1")] },
       { created_scale_set := some "ss-1", deleted_scale_sets := [] }) := by
  decide

/-- C8 counterexample: a fully successful provisioning (token granted,
instance i-9 confirmed by the provider) inserts a record whose status is the
string starting, not Active. -/
theorem c8_counterexample :
    create_runner "runner-9-aaaa" "octo" "repo" cfg0
      { reg_token := some "tok", instance_id := some "i-9" } 5 [] =
      (true, [("runner-9-aaaa",
        { instance_id := "i-9", owner := "octo", repo := "repo",
          created_at := 5, status := "starting", config := cfg0 })]) ∧
    ("starting" : String) ≠ "Active" ∧ ("starting" : String) ≠ "active" := by
  decide

/-- C9 counterexample: with one tracked record whose instance i-1 appears in
the provider listing, POST /cleanup terminates i-1 and reports one instance
cleaned, but the tracked record is still in the registry afterwards,
contradicting the claim that every previously tracked record is removed. -/
theorem c9_counterexample :
    manual_cleanup_route [{ instance_id := "i-1", launch_time := 0 }] 10
      (fun _ => true) [("runner-1-aaaa", rec1)] =
      (1, [("runner-1-aaaa", rec1)], ["i-1"]) ∧
    ([("runner-1-aaaa", rec1)] : RMRegistry) ≠ [] := by
  decide

/-! ## Helper lemmas shared by the remaining theorems -/

/-- The ids for which cleanup_old_instances issues a termination are exactly
the listed instances over the age bound, and the reported count is the
number of those whose termination call succeeded. -/
theorem cleanup_old_instances_spec (now mah : Nat) (tk : String → Bool)
    (l : List AwsInstance) :
    (cleanup_old_instances now mah tk l).2 =
      (l.filter (fun i => mah * 3600 < now - i.launch_time)).map
        (fun i => i.instance_id) ∧
    (cleanup_old_instances now mah tk l).1 =
      ((l.filter (fun i => mah * 3600 < now - i.launch_time)).filter
        (fun i => tk i.instance_id)).length := by
  induction l with
  | nil => exact ⟨rfl, rfl⟩
  | cons a t ih =>
    by_cases h : mah * 3600 < now - a.launch_time
    · by_cases h2 : tk a.instance_id <;>
        simp [cleanup_old_instances, List.filter_cons, h, h2, ih.1, ih.2]
      omega
    · simp [cleanup_old_instances, List.filter_cons, h, ih.1, ih.2]

/-- When _get_or_create_scale_set reports a newly created scale set, that
scale set is also the one it returns. -/
theorem get_or_create_created (env : JPEnv) (name : String)
    (cache : List (String × String)) (x : String)
    (h : (get_or_create_scale_set env name cache).2.2 = some x) :
    (get_or_create_scale_set env name cache).1 = some x := by
  unfold get_or_create_scale_set at h ⊢
  rcases hd : dictFind cache name with _ | sid
  · rcases he : env.existing_scale_sets.head? with _ | sid2
    · rcases hc : env.create_scale_set_result with _ | sid3
      · simp [hd, he, hc] at h
      · simp [hd, he, hc] at h ⊢
        exact h
    · simp [hd, he] at h
  · simp [hd] at h

/-- Removing a key from the dictionary makes lookups of that key fail. -/
theorem dictFind_erase {α : Type} (d : List (String × α)) (k : String) :
    dictFind (d.filter (fun p => ¬ (p.1 = k))) k = none := by
  induction d with
  | nil => rfl
  | cons p ps ih =>
    by_cases hp : p.1 = k
    · simp only [List.filter_cons, hp, not_true_eq_false, decide_False, Bool.false_eq_true,
        if_false]
      exact ih
    · simp [dictFind, List.filter_cons, List.find?, hp]

/-- A string starting with sha256= is never empty. -/
theorem sha_header_ne_empty (m : String) : ("sha256=" ++ m) ≠ "" := by
  cases m with
  | mk l =>
    intro h
    have h2 : "sha256=".data ++ l = "".data := congrArg String.data h
    simp at h2

/-- C9 amended: POST /cleanup leaves the registry untouched; it issues a
termination for exactly the provider-listed instances whose age is
positive, and reports the number of those whose termination call
succeeded. -/
theorem c9_amended (instances : List AwsInstance) (now : Nat)
    (term_ok : String → Bool) (reg : RMRegistry) :
    (manual_cleanup_route instances now term_ok reg).2.1 = reg ∧
    (manual_cleanup_route instances now term_ok reg).2.2 =
      (instances.filter (fun i => 0 < now - i.launch_time)).map
        (fun i => i.instance_id) ∧
    (manual_cleanup_route instances now term_ok reg).1 =
      ((instances.filter (fun i => 0 < now - i.launch_time)).filter
        (fun i => term_ok i.instance_id)).length := by
  refine ⟨rfl, ?_, ?_⟩
  · have h := (cleanup_old_instances_spec now 0 term_ok instances).1
    simpa [manual_cleanup_route] using h
  · have h := (cleanup_old_instances_spec now 0 term_ok instances).2
    simpa [manual_cleanup_route] using h

/-- C8 amended: on confirmed success both provisioning routines insert the
record with status the string starting (the Starting state), not Active:
the webhook-path create_runner and the polling-path _create_runner_for_job
each commit a record whose status field is starting. -/
theorem c8_amended (runner_name owner repo : String) (cfg : RunsOnConfig)
    (env : CreateEnv) (now : Nat) (reg : RMRegistry) (tok iid : String)
    (d : ParserDefaults) (jenv : JPEnv) (s1 s2 : String) (now2 : Nat)
    (job : JPJob) (st : JPState) (cfg2 : JPConfig) (sid tok2 iid2 : String)
    (h1 : env.reg_token = some tok) (h2 : env.instance_id = some iid)
    (h3 : parse_runner_config d job.labels = Except.ok cfg2)
    (h4 : (get_or_create_scale_set jenv
      ("scaleset-" ++ toString job.job_id ++ "-" ++ s2) st.scale_sets).1 = some sid)
    (h5 : jenv.reg_token = some tok2) (h6 : jenv.instance_id = some iid2) :
    create_runner runner_name owner repo cfg env now reg =
      (true, dictInsert runner_name
        { instance_id := iid, owner := owner, repo := repo,
          created_at := now, status := "starting", config := cfg } reg) ∧
    (create_runner_for_job d jenv s1 s2 now2 job st).1.active_runners =
      dictInsert ("runner-" ++ toString job.job_id ++ "-" ++ s1)
        { job_id := job.job_id, instance_id := iid2, scale_set_id := sid,
          scale_set_name := "scaleset-" ++ toString job.job_id ++ "-" ++ s2,
          repository := job.repository, created_at := now2,
          status := "starting", config := cfg2 }
        st.active_runners := by
  constructor
  · simp [create_runner, h1, h2]
  · simp [create_runner_for_job, h3, h4, h5, h6]

/-- C2 amended: when provisioning fails after the scale set step, the
runner table is unchanged; a newly created scale set is deleted when the
failing step is instance creation, but when the failing step is obtaining
the registration credential nothing is deleted and a newly created scale
set is left behind. -/
theorem c2_amended (d : ParserDefaults) (env : JPEnv) (s1 s2 : String)
    (now : Nat) (job : JPJob) (st : JPState) (g : String)
    (hfail : env.reg_token = none ∨ env.instance_id = none) :
    (create_runner_for_job d env s1 s2 now job st).1.active_runners =
      st.active_runners ∧
    (env.reg_token = none →
      (create_runner_for_job d env s1 s2 now job st).2.deleted_scale_sets = []) ∧
    (env.reg_token ≠ none → env.instance_id = none →
      (create_runner_for_job d env s1 s2 now job st).2.created_scale_set = some g →
      (create_runner_for_job d env s1 s2 now job st).2.deleted_scale_sets = [g]) := by
  rcases hp : parse_runner_config d job.labels with e | cfg
  · simp [create_runner_for_job, hp]
  · rcases hg : (get_or_create_scale_set env
      ("scaleset-" ++ toString job.job_id ++ "-" ++ s2) st.scale_sets).1 with _ | sid
    · refine ⟨by simp [create_runner_for_job, hp, hg],
        by simp [create_runner_for_job, hp, hg], ?_⟩
      intro _ _ hcr
      simp only [create_runner_for_job, hp, hg] at hcr
      have h2 := get_or_create_created env _ st.scale_sets g hcr
      rw [hg] at h2
      exact absurd h2 (by simp)
    · rcases ht : env.reg_token with _ | tok
      · simp [create_runner_for_job, hp, hg, ht]
      · rcases hfail with hf | hf
        · rw [ht] at hf
          exact absurd hf (by simp)
        · refine ⟨by simp [create_runner_for_job, hp, hg, ht, hf],
            by simp [create_runner_for_job, ht], ?_⟩
          intro _ _ hcr
          simp only [create_runner_for_job, hp, hg, ht, hf] at hcr
          have h2 := get_or_create_created env _ st.scale_sets g hcr
          rw [hg] at h2
          injection h2 with h3
          simp [create_runner_for_job, hp, hg, ht, hf, h3]

/-- C6: for every positive cpu count the resolver returns the smallest
class in the capacity table whose capacity is at least the count, in
particular cpu 5 maps to the 8-cpu tier, and a count exceeding every tier,
such as 1000, resolves to the largest class. -/
theorem c6_cpu_resolution (n : Int) (h : 0 < n) :
    cpu_to_instance_type n = specSmallestClassAtLeast n ∧
    cpu_to_instance_type 5 = "t3.2xlarge" ∧
    cpu_to_instance_type 1000 = largestClass ∧
    largestClass = "m5.16xlarge" := by
  refine ⟨?_, by decide, by decide, by decide⟩
  by_cases h64 : n ≤ 64
  · interval_cases n <;> decide
  · push_neg at h64
    have d1 : ¬ (n ≤ 1) := by omega
    have d2 : ¬ (n ≤ 2) := by omega
    have d4 : ¬ (n ≤ 4) := by omega
    have d8 : ¬ (n ≤ 8) := by omega
    have d16 : ¬ (n ≤ 16) := by omega
    have d32 : ¬ (n ≤ 32) := by omega
    have d64 : ¬ (n ≤ 64) := by omega
    simp [cpu_to_instance_type, findClass, cpu_map, specSmallestClassAtLeast,
      minCapEntry, largestClass, maxCapEntry, List.filter, d1, d2, d4, d8, d16,
      d32, d64]

/-- C6 witness: the resolver evaluated at cpu count 5. -/
theorem c6_cpu_resolution_witness :
    (0 : Int) < 5 ∧
    (cpu_to_instance_type 5 = specSmallestClassAtLeast 5 ∧
     cpu_to_instance_type 5 = "t3.2xlarge" ∧
     cpu_to_instance_type 1000 = largestClass ∧
     largestClass = "m5.16xlarge") :=
  ⟨by decide, c6_cpu_resolution 5 (by decide)⟩

/-- C5: the program never accepts any signature. Config declares no
github_webhook_secret field, so whenever a signature header is present the
attribute lookup raises AttributeError before the verifier's try block and
the request is answered 500 by the surrounding handler: the header
sha256= followed by the digest of the body under any secret is never
accepted, and a wrong present header is answered 500 rather than 401. Only
a missing header takes the False branch and is answered 401. In every case
the registry is unchanged and the body parser is never consulted. -/
theorem c5_secret_attribute_missing (mac : String → String → String)
    (s body : String) (event_type : Option String) (env : WebhookEnv)
    (reg : RMRegistry) (hdr : String) (hne : hdr ≠ "") :
    verify_signature mac configWebhookSecret body
      (some ("sha256=" ++ mac s body)) = Except.error "AttributeError" ∧
    handle_webhook mac configWebhookSecret body
      (some ("sha256=" ++ mac s body)) event_type env reg = (500, reg) ∧
    verify_signature mac configWebhookSecret body (some hdr) =
      Except.error "AttributeError" ∧
    handle_webhook mac configWebhookSecret body (some hdr) event_type env reg =
      (500, reg) ∧
    verify_signature mac configWebhookSecret body none = Except.ok false ∧
    handle_webhook mac configWebhookSecret body none event_type env reg =
      (401, reg) := by
  refine ⟨?_, ?_, ?_, ?_, ?_, ?_⟩
  · simp [verify_signature, configWebhookSecret, sha_header_ne_empty (mac s body)]
  · simp [handle_webhook, verify_signature, configWebhookSecret,
      sha_header_ne_empty (mac s body)]
  · simp [verify_signature, configWebhookSecret, hne]
  · simp [handle_webhook, verify_signature, configWebhookSecret, hne]
  · simp [verify_signature]
  · simp [handle_webhook, verify_signature]

/-- Cleanup environment with no remove token and no listed runners. -/
def clenvFix : CleanupEnv := { remove_token := none, github_runners := [] }

/-- A concrete webhook environment for the C5 witness. -/
def wenvFix : WebhookEnv :=
  { parseJson := fun _ => none, d := sampleDefaults, cenv := envA,
    clenv := clenvFix, suffix := "x", now := 0 }

/-- C5 witness: the digest function that returns the body itself, body b,
the well-formed header for secret s, and the wrong header nope. -/
theorem c5_secret_attribute_missing_witness :
    ("nope" : String) ≠ "" ∧
    (verify_signature (fun _ b => b) configWebhookSecret "b"
       (some ("sha256=" ++ "b")) = Except.error "AttributeError" ∧
     handle_webhook (fun _ b => b) configWebhookSecret "b"
       (some ("sha256=" ++ "b")) none wenvFix [] = (500, []) ∧
     verify_signature (fun _ b => b) configWebhookSecret "b" (some "nope") =
       Except.error "AttributeError" ∧
     handle_webhook (fun _ b => b) configWebhookSecret "b" (some "nope") none
       wenvFix [] = (500, []) ∧
     verify_signature (fun _ b => b) configWebhookSecret "b" none =
       Except.ok false ∧
     handle_webhook (fun _ b => b) configWebhookSecret "b" none none
       wenvFix [] = (401, [])) :=
  ⟨by decide,
   c5_secret_attribute_missing (fun _ b => b) "s" "b" none wenvFix [] "nope"
     (by decide)⟩

/-- C10: cleaning up a name that is not tracked returns False and changes
nothing, in both lifecycle managers, and running the cleanup routine twice
in sequence for the same name issues at most one termination call in
total. -/
theorem c10_cleanup_untracked_noop (runner_name : String)
    (env1 env2 : CleanupEnv) (reg reg0 : RMRegistry)
    (org : Option String) (st : JPState)
    (h : dictFind reg runner_name = none)
    (hjp : dictFind st.active_runners runner_name = none) :
    cleanup_runner runner_name env1 reg = (false, reg, noEffects) ∧
    jp_cleanup_runner org runner_name st =
      (st, { terminated := [], deleted_scale_sets := [] }) ∧
    (cleanup_runner runner_name env1 reg0).2.2.terminated.length +
      (cleanup_runner runner_name env2
        (cleanup_runner runner_name env1 reg0).2.1).2.2.terminated.length ≤ 1 := by
  refine ⟨by simp [cleanup_runner, h], by simp [jp_cleanup_runner, hjp], ?_⟩
  rcases hf : dictFind reg0 runner_name with _ | info
  · simp [cleanup_runner, hf, noEffects]
  · simp only [cleanup_runner, hf]
    rw [dictFind_erase]
    simp [noEffects]

/-- C10 witness: an untracked name on the empty registries, and the double
cleanup starting from a registry tracking runner-1-aaaa. -/
theorem c10_cleanup_untracked_noop_witness :
    dictFind ([] : RMRegistry) "runner-1-aaaa" = none ∧
    dictFind (({ active_runners := [], scale_sets := [] } : JPState)).active_runners
      "runner-1-aaaa" = none ∧
    (cleanup_runner "runner-1-aaaa" clenvFix [] = (false, [], noEffects) ∧
     jp_cleanup_runner none "runner-1-aaaa"
       { active_runners := [], scale_sets := [] } =
       ({ active_runners := [], scale_sets := [] },
        { terminated := [], deleted_scale_sets := [] }) ∧
     (cleanup_runner "runner-1-aaaa" clenvFix
        [("runner-1-aaaa", rec1)]).2.2.terminated.length +
       (cleanup_runner "runner-1-aaaa" clenvFix
         (cleanup_runner "runner-1-aaaa" clenvFix
           [("runner-1-aaaa", rec1)]).2.1).2.2.terminated.length ≤ 1) :=
  ⟨rfl, rfl,
   c10_cleanup_untracked_noop "runner-1-aaaa" clenvFix clenvFix []
     [("runner-1-aaaa", rec1)] none { active_runners := [], scale_sets := [] }
     rfl rfl⟩

/-- Provisioning environment for the C2 witness: scale set creation
succeeds, the token is granted, instance creation fails. -/
def jenvRollback : JPEnv :=
  { existing_scale_sets := [], create_scale_set_result := some "ss-1",
    reg_token := some "tok", instance_id := none }

/-- A queued job fixture for job 7. -/
def jobFix : JPJob :=
  { job_id := 7, labels := ["runs-on=7"], repository := "octo/repo" }

/-- C2 witness: provisioning job 7 with instance creation failing after a
new scale set ss-1 was created deletes exactly that scale set and leaves
the runner table unchanged. -/
theorem c2_amended_witness :
    (jenvRollback.reg_token = none ∨ jenvRollback.instance_id = none) ∧
    ((create_runner_for_job sampleDefaults jenvRollback "aaaa" "bbbb" 0 jobFix
        { active_runners := [], scale_sets := [] }).1.active_runners =
      ({ active_runners := [], scale_sets := [] } : JPState).active_runners ∧
     (jenvRollback.reg_token = none →
       (create_runner_for_job sampleDefaults jenvRollback "aaaa" "bbbb" 0 jobFix
         { active_runners := [], scale_sets := [] }).2.deleted_scale_sets = []) ∧
     (jenvRollback.reg_token ≠ none → jenvRollback.instance_id = none →
       (create_runner_for_job sampleDefaults jenvRollback "aaaa" "bbbb" 0 jobFix
         { active_runners := [], scale_sets := [] }).2.created_scale_set =
           some "ss-1" →
       (create_runner_for_job sampleDefaults jenvRollback "aaaa" "bbbb" 0 jobFix
         { active_runners := [], scale_sets := [] }).2.deleted_scale_sets =
           ["ss-1"])) :=
  ⟨Or.inr rfl,
   c2_amended sampleDefaults jenvRollback "aaaa" "bbbb" 0 jobFix
     { active_runners := [], scale_sets := [] } "ss-1" (Or.inr rfl)⟩

/-- Provisioning environment for the C8 witness: everything succeeds. -/
def jenvOk : JPEnv :=
  { existing_scale_sets := [], create_scale_set_result := some "ss-2",
    reg_token := some "tok2", instance_id := some "i-2" }

/-- The configuration _parse_runner_config yields for the labels of
jobFix: all defaults. -/
def jpCfgFix : JPConfig :=
  { instance_type := "t3.medium", ami_id := "ami-0c02fb55956c7d316",
    labels := ["self-hosted", "linux", "x64"], max_price := "0.10",
    work_folder := "/home/runner/_work" }

/-- C8 witness: both provisioning paths run at concrete successful inputs
insert records with status starting. -/
theorem c8_amended_witness :
    envA.reg_token = some "tok" ∧
    envA.instance_id = some "i-111" ∧
    parse_runner_config sampleDefaults jobFix.labels = Except.ok jpCfgFix ∧
    (get_or_create_scale_set jenvOk
      ("scaleset-" ++ toString jobFix.job_id ++ "-" ++ "bbbb")
      ({ active_runners := [], scale_sets := [] } : JPState).scale_sets).1 =
        some "ss-2" ∧
    jenvOk.reg_token = some "tok2" ∧
    jenvOk.instance_id = some "i-2" ∧
    (create_runner "runner-9-aaaa" "octo" "repo" cfg0 envA 5 [] =
      (true, dictInsert "runner-9-aaaa"
        { instance_id := "i-111", owner := "octo", repo := "repo",
          created_at := 5, status := "starting", config := cfg0 } []) ∧
     (create_runner_for_job sampleDefaults jenvOk "aaaa" "bbbb" 9 jobFix
        { active_runners := [], scale_sets := [] }).1.active_runners =
      dictInsert ("runner-" ++ toString jobFix.job_id ++ "-" ++ "aaaa")
        { job_id := jobFix.job_id, instance_id := "i-2", scale_set_id := "ss-2",
          scale_set_name := "scaleset-" ++ toString jobFix.job_id ++ "-" ++ "bbbb",
          repository := jobFix.repository, created_at := 9,
          status := "starting", config := jpCfgFix } []) :=
  ⟨rfl, rfl, rfl, rfl, rfl, rfl,
   c8_amended "runner-9-aaaa" "octo" "repo" cfg0 envA 5 [] "tok" "i-111"
     sampleDefaults jenvOk "aaaa" "bbbb" 9 jobFix
     { active_runners := [], scale_sets := [] } jpCfgFix "ss-2" "tok2" "i-2"
     rfl rfl rfl rfl rfl rfl⟩

end ActionsSpot
